import Mathlib

/-!
# The upload / list / download gateway of `be/main.go`

A shallow embedding of the three HTTP handlers of `be/main.go`
(`uploadHandler`, `listObjectsHandler`, `downloadHandler`).

The handlers are translated statement by statement.  What they call in
`net/http`, `mime/multipart`, `encoding/json`, `fmt`, `io` and `minio-go` is
not part of the repository; the first half of the file fixes the behaviour of
those calls that the handlers rely on:

* a Go `string` is a Lean `String`, a byte is a `Fin 256`;
* an `error` is the text of its `Error()` method;
* the `http.ResponseWriter` is a record of the header map, the committed
  status line and the body written so far;
* the storage client `s3Client` is a parameter: a record of three functions
  over an arbitrary backend state, and every call made on it is recorded.
-/

namespace MinioGateway

/-! ## Strings, bytes, maps of string lists -/

/-- One octet of an object or of a request body. -/
abbrev Byte := Fin 256

/-- Go's `string(b)` for a byte slice: the string with the same bytes, a byte
being kept as the character of the same code. -/
def goString (b : List Byte) : String :=
  String.mk (b.map (fun x => Char.ofNat x.val))

/-- The shape shared by `url.Values`, `http.Header` and `textproto.MIMEHeader`:
`map[string][]string`.  A key that is absent maps to the empty list. -/
abbrev Values := String → List String

/-- The empty map. -/
def Values.empty : Values := fun _ => []

/-- The method `Get` of `url.Values` and `http.Header`: the first value of the
key, or the empty string. -/
def Values.Get (v : Values) (key : String) : String :=
  match v key with
  | [] => ""
  | x :: _ => x

/-- The method `Set` of `http.Header`: the key now has exactly this value. -/
def Values.Set (v : Values) (key value : String) : Values :=
  fun k => if k = key then [value] else v k

/-- What `append(m[key], vs...)` stores back under `key`. -/
def Values.Add (v : Values) (key : String) (vs : List String) : Values :=
  fun k => if k = key then v k ++ vs else v k

/-! ## `encoding/json` -/

/-- The Go value `[]string`: `none` is the nil slice, `some xs` a non-nil slice
with elements `xs`. -/
abbrev StringSlice := Option (List String)

/-- Go's `len`. -/
def StringSlice.len : StringSlice → Nat
  | none => 0
  | some xs => xs.length

/-- The elements of a slice, in order; the nil slice has none. -/
def StringSlice.elems : StringSlice → List String
  | none => []
  | some xs => xs

/-- Go's `append(s, x)`: appending to the nil slice allocates. -/
def StringSlice.append : StringSlice → String → StringSlice
  | none, x => some [x]
  | some xs, x => some (xs ++ [x])

/-- A JSON value as `encoding/json` emits it for the values the handlers
encode. -/
inductive JsonValue where
  | null
  | string (s : String)
  | array (xs : List String)
  deriving DecidableEq

/-- A JSON object: its members in the order they are emitted. -/
abbrev JsonObject := List (String × JsonValue)

/-- How `encoding/json` encodes a `[]string`: the nil slice is `null`, any
other slice is an array. -/
def marshalStrings : StringSlice → JsonValue
  | none => JsonValue.null
  | some xs => JsonValue.array xs

/-- The type `Response` of `main.go`. -/
structure Response where
  Message : String
  deriving DecidableEq

/-- Encoding of a `Response`: one member, named by the struct tag. -/
def Response.marshal (r : Response) : JsonObject :=
  [("message", JsonValue.string r.Message)]

/-! ## `http.ResponseWriter` -/

/-- One element of a response body.  Object bytes are kept byte by byte.  A line
written by `fmt.Fprintln` (the text followed by a newline) and a document
written by `json.Encoder.Encode` are kept whole. -/
inductive BodyItem where
  | byte (b : Byte)
  | line (text : String)
  | json (v : JsonObject)
  deriving DecidableEq

/-- The state of an `http.ResponseWriter`. -/
structure ResponseWriter where
  /-- The map returned by `w.Header()`. -/
  header : Values
  /-- The status code and the header map as they were when the header was
  committed; `none` until then. -/
  wroteHeader : Option (Nat × Values)
  /-- Everything written to the body, in order. -/
  body : List BodyItem

/-- The writer a handler is started with. -/
def newResponseWriter : ResponseWriter :=
  { header := Values.empty, wroteHeader := none, body := [] }

/-- `w.Header().Set(key, value)`. -/
def ResponseWriter.SetHeader (w : ResponseWriter) (key value : String) : ResponseWriter :=
  { w with header := w.header.Set key value }

/-- `w.WriteHeader(code)`: commits the status and the current header map; a
second call is ignored by `net/http`. -/
def ResponseWriter.WriteHeader (w : ResponseWriter) (code : Nat) : ResponseWriter :=
  match w.wroteHeader with
  | some _ => w
  | none => { w with wroteHeader := some (code, w.header) }

/-- `w.Write`: commits status 200 when nothing is committed yet, then appends to
the body. -/
def ResponseWriter.Write (w : ResponseWriter) (items : List BodyItem) : ResponseWriter :=
  let w1 := w.WriteHeader 200
  { w1 with body := w1.body ++ items }

/-- The status code the client receives: the committed one, or 200 when the
handler returns without having committed any. -/
def ResponseWriter.status (w : ResponseWriter) : Nat :=
  match w.wroteHeader with
  | some (code, _) => code
  | none => 200

/-- The header map the client receives: the one committed with the status, or
the current one when the handler returns without having committed. -/
def ResponseWriter.sentHeader (w : ResponseWriter) : Values :=
  match w.wroteHeader with
  | some (_, h) => h
  | none => w.header

def StatusOK : Nat := 200
def StatusBadRequest : Nat := 400
def StatusInternalServerError : Nat := 500

/-- The function `http.Error(w, error, code)`: sets the two headers of a plain
text reply, calls `WriteHeader(code)` and prints the text as one line.  (Recent
releases also delete `Content-Length` first, which no handler here sets.) -/
def Error (w : ResponseWriter) (error : String) (code : Nat) : ResponseWriter :=
  let w := w.SetHeader "Content-Type" "text/plain; charset=utf-8"
  let w := w.SetHeader "X-Content-Type-Options" "nosniff"
  let w := w.WriteHeader code
  w.Write [BodyItem.line error]

/-- The call `json.NewEncoder(w).Encode(v)`: one `Write` of the document. -/
def Encode (w : ResponseWriter) (v : JsonObject) : ResponseWriter :=
  w.Write [BodyItem.json v]

/-! ## The request and `ParseMultipartForm` -/

/-- A `textproto.MIMEHeader`: the keys of the map with their values.  A key
occurs once. -/
abbrev MIMEHeader := List (String × List String)

/-- The method `Get` of `textproto.MIMEHeader`: the first value of the key, or the
empty string. -/
def MIMEHeader.Get (h : MIMEHeader) (key : String) : String :=
  match h.lookup key with
  | some (v :: _) => v
  | _ => ""

/-- The function `filepath.Base` where the path separator is the slash and there
are no volume names: the last element of the path, after removing trailing
slashes; "." for the empty path and "/" for a path of slashes only. -/
def Base (path : String) : String :=
  if path = "" then "."
  else
    let stripped := (path.data.reverse.dropWhile (fun c => c == '/')).reverse
    let last := (stripped.reverse.takeWhile (fun c => c != '/')).reverse
    if last = [] then "/" else String.mk last

/-- One part of a `multipart/form-data` body. -/
structure Part where
  /-- The result of `p.FormName()`: the `name` parameter of the
  `Content-Disposition` header when its type is `form-data`. -/
  FormName : String
  /-- The `filename` parameter of the `Content-Disposition` header, as the
  client sent it; empty when there is none. -/
  filename : String
  /-- The MIME header of the part. -/
  Header : MIMEHeader
  /-- The bytes of the part. -/
  content : List Byte

/-- The method `p.FileName()`: empty when the part has no file name, and
otherwise the submitted file name without its directories. -/
def Part.FileName (p : Part) : String :=
  if p.filename = "" then "" else Base p.filename

/-- A `multipart.FileHeader`. -/
structure FileHeader where
  Filename : String
  Header : MIMEHeader
  Size : Int
  /-- The bytes `Open()` reads. -/
  content : List Byte
  /-- Whether the bytes were spilled to a temporary file instead of memory. -/
  onDisk : Bool

/-- A `multipart.Form`. -/
structure MultipartForm where
  Value : Values
  File : String → List FileHeader

/-- An incoming request, as far as the handlers look at it. -/
structure Request where
  /-- The values of `r.URL.Query()`. -/
  query : Values
  /-- The error of parsing the raw query string, which only `ParseForm`
  reports. -/
  queryErr : Option String
  /-- The body read as `multipart/form-data`: its parts, or the error of the
  multipart reader (wrong content type, missing boundary, malformed part,
  header block of a part over the limits of the reader). -/
  parts : Except String (List Part)

/-- A request after a successful `ParseMultipartForm`. -/
structure ParsedRequest where
  /-- The field `r.Form`. -/
  Form : Values
  /-- The field `r.MultipartForm`. -/
  MultipartForm : MinioGateway.MultipartForm

/-- The text of `multipart.ErrMessageTooLarge`. -/
def ErrMessageTooLarge : String := "multipart: message too large"

/-- The text of `http.ErrMissingFile`. -/
def ErrMissingFile : String := "http: no such file"

/-- The constant `mapEntryOverhead` of `ReadForm`. -/
def mapEntryOverhead : Int := 200

/-- The constant `fileHeaderSize` of `ReadForm`. -/
def fileHeaderSize : Int := 100

/-- The function `mimeHeaderSize` of `mime/multipart`: what a MIME header is
charged against the memory limit. -/
def mimeHeaderSize (h : MIMEHeader) : Int :=
  400 + (h.map (fun kv =>
    (kv.1.length : Int) + 200 + (kv.2.map (fun v => (v.length : Int))).sum)).sum

/-- The largest `int64`. -/
def MaxInt64 : Int := 9223372036854775807

/-- The `int64` an integer wraps to. -/
def wrapInt64 (x : Int) : Int :=
  (x + 9223372036854775808) % 18446744073709551616 - 9223372036854775808

/-- The loop of `multipart.Reader.ReadForm`.  `maxParts` is the number of parts
still allowed, `maxMemoryBytes` what is left of the memory for values, file
bytes and bookkeeping, `maxFileMemoryBytes` what is left of the memory for file
bytes.  Every part counts against `maxParts`.  A part without a form name is
skipped.  The name of any other part and a map entry are charged to
`maxMemoryBytes`.  A part without a file name is a value: it must fit in
`maxMemoryBytes`.  Any other part is a file: its header is charged to
`maxMemoryBytes`, and its bytes are kept in memory when they fit in
`maxFileMemoryBytes`, and otherwise written to a temporary file, whatever their
number. -/
def readFormLoop : List Part → MultipartForm → Int → Int → Int → Except String MultipartForm
  | [], form, _, _, _ => Except.ok form
  | p :: ps, form, maxParts, maxMemoryBytes, maxFileMemoryBytes =>
    if maxParts ≤ 0 then
      Except.error ErrMessageTooLarge
    else if p.FormName = "" then
      readFormLoop ps form (maxParts - 1) maxMemoryBytes maxFileMemoryBytes
    else if maxMemoryBytes - (p.FormName.length : Int) - mapEntryOverhead < 0 then
      Except.error ErrMessageTooLarge
    else if p.FileName = "" then
      let maxMemoryBytes := maxMemoryBytes - (p.FormName.length : Int) - mapEntryOverhead
      let n : Int := min (p.content.length : Int) (maxMemoryBytes + 1)
      if maxMemoryBytes - n < 0 then
        Except.error ErrMessageTooLarge
      else
        readFormLoop ps
          { form with Value := form.Value.Add p.FormName [goString p.content] }
          (maxParts - 1) (maxMemoryBytes - n) maxFileMemoryBytes
    else
      let maxMemoryBytes := maxMemoryBytes - (p.FormName.length : Int) - mapEntryOverhead
        - mimeHeaderSize p.Header - mapEntryOverhead - fileHeaderSize
      if maxMemoryBytes < 0 then
        Except.error ErrMessageTooLarge
      else
        let n : Int := min (p.content.length : Int) (maxFileMemoryBytes + 1)
        if n > maxFileMemoryBytes then
          let fh : FileHeader :=
            { Filename := p.FileName, Header := p.Header, Size := p.content.length,
              content := p.content, onDisk := true }
          readFormLoop ps
            { form with
              File := fun k => if k = p.FormName then form.File k ++ [fh] else form.File k }
            (maxParts - 1) maxMemoryBytes maxFileMemoryBytes
        else
          let fh : FileHeader :=
            { Filename := p.FileName, Header := p.Header, Size := p.content.length,
              content := p.content, onDisk := false }
          readFormLoop ps
            { form with
              File := fun k => if k = p.FormName then form.File k ++ [fh] else form.File k }
            (maxParts - 1) (maxMemoryBytes - n) (maxFileMemoryBytes - n)

/-- The method `ReadForm(maxMemory)`: at most 1000 parts; ten more MiB than
`maxMemory` may be held in memory in all, `maxMemory` of them for the bytes of
files. -/
def ReadForm (ps : List Part) (maxMemory : Int) : Except String MultipartForm :=
  let maxFileMemoryBytes := if maxMemory = MaxInt64 then maxMemory - 1 else maxMemory
  let maxMemoryBytes := wrapInt64 (maxMemory + ((10 <<< 20 : Nat) : Int))
  let maxMemoryBytes :=
    if maxMemoryBytes ≤ 0 then (if maxMemory < 0 then 0 else MaxInt64) else maxMemoryBytes
  readFormLoop ps { Value := Values.empty, File := fun _ => [] }
    1000 maxMemoryBytes maxFileMemoryBytes

/-- The method `r.ParseMultipartForm(maxMemory)`: `r.Form` starts as the query
values, the body is read with `ReadForm`, the values of the body are appended
to `r.Form`, and an error of the query string is returned at the end. -/
def ParseMultipartForm (r : Request) (maxMemory : Int) : Except String ParsedRequest :=
  match r.parts with
  | Except.error err => Except.error err
  | Except.ok ps =>
    match ReadForm ps maxMemory with
    | Except.error err => Except.error err
    | Except.ok f =>
      match r.queryErr with
      | some err => Except.error err
      | none =>
        Except.ok { Form := fun k => r.query k ++ f.Value k, MultipartForm := f }

/-- The method `r.FormValue(key)` once the form is parsed. -/
def ParsedRequest.FormValue (r : ParsedRequest) (key : String) : String :=
  r.Form.Get key

/-- The method `r.FormFile(key)` once the form is parsed: the first file under
the key, or `ErrMissingFile`. -/
def ParsedRequest.FormFile (r : ParsedRequest) (key : String) : Except String FileHeader :=
  match r.MultipartForm.File key with
  | [] => Except.error ErrMissingFile
  | fh :: _ => Except.ok fh

/-! ## The storage client -/

/-- The type `minio.UploadInfo`, as far as the handler reads it. -/
structure UploadInfo where
  Bucket : String
  Key : String
  Size : Int
  deriving DecidableEq

/-- The type `minio.ObjectInfo`, as far as the handler reads it: an entry of the
channel returned by `ListObjects` carries a key or an error. -/
structure ObjectInfo where
  Key : String
  Err : Option String
  deriving DecidableEq

/-- The type `*minio.Object` as `io.Copy` sees it: successive reads deliver
`data`, and then end of file (`err = none`) or the error `err`. -/
structure ObjectReader where
  data : List Byte
  err : Option String
  deriving DecidableEq

/-- The three methods of `*minio.Client` that the handlers call, over a backend
state `σ`.  `PutObject` takes the bucket, the key, the bytes of the reader, the
declared size and the content type of `PutObjectOptions`.  `ListObjects` takes
the bucket and the flag `Recursive` and gives the entries the channel yields
until it is closed. -/
structure StorageClient (σ : Type) where
  PutObject : σ → String → String → List Byte → Int → String → Except String UploadInfo × σ
  ListObjects : σ → String → Bool → List ObjectInfo
  GetObject : σ → String → String → Except String ObjectReader

/-- A call made on the storage client, with its arguments. -/
inductive Call where
  | PutObject (bucketName objectName : String) (data : List Byte) (objectSize : Int)
      (contentType : String)
  | ListObjects (bucketName : String) (recursive : Bool)
  | GetObject (bucketName objectName : String)
  deriving DecidableEq

/-- What running a handler leaves behind: the response writer, the backend
state, the calls made on the storage client and the lines logged. -/
structure Outcome (σ : Type) where
  w : ResponseWriter
  store : σ
  calls : List Call
  log : List String

/-- Decimal text of an integer, the verb `%d`. -/
def fmtInt (n : Int) : String := toString n

/-- The function `io.Copy(w, src)`: every byte read is written, and a read of no
bytes writes nothing; the result is the error that ended the reads, if any.
The writer of this model never fails. -/
def Copy (w : ResponseWriter) (src : ObjectReader) : ResponseWriter × Option String :=
  match src.data with
  | [] => (w, src.err)
  | b :: bs => (w.Write ((b :: bs).map BodyItem.byte), src.err)

/-! ## The handlers of `main.go` -/

variable {σ : Type}

/-- The handler `uploadHandler` (lines 56 to 114).  The deferred `file.Close()`
has no effect on the response or on the backend and is left out. -/
def uploadHandler (s3Client : StorageClient σ) (store : σ) (w : ResponseWriter)
    (r : Request) : Outcome σ :=
  let log := ["Handling file upload request", "Parsing multipart form data"]
  match ParseMultipartForm r ((10 <<< 20 : Nat) : Int) with
  | Except.error err =>
    { w := Error w "Unable to parse form" StatusBadRequest, store := store, calls := [],
      log := log ++ ["Error parsing form data: " ++ err] }
  | Except.ok r =>
    let bucketName := r.FormValue "bucket"
    if bucketName = "" then
      { w := Error w "Bucket name is required" StatusBadRequest, store := store, calls := [],
        log := log ++ ["Bucket name is missing in the request"] }
    else
      let log := log ++ ["Received bucket name: " ++ bucketName]
      match r.FormFile "file" with
      | Except.error err =>
        { w := Error w "File is required" StatusBadRequest, store := store, calls := [],
          log := log ++ ["Error getting file from request: " ++ err] }
      | Except.ok fileHeader =>
        let file := fileHeader.content
        let log := log ++ ["Received file: " ++ fileHeader.Filename ++ ", size: "
          ++ fmtInt fileHeader.Size ++ " bytes"]
        let objectName := fileHeader.Filename
        let log := log ++ ["Uploading file to bucket " ++ bucketName ++ " with object name "
          ++ objectName]
        let contentType := fileHeader.Header.Get "Content-Type"
        let calls := [Call.PutObject bucketName objectName file fileHeader.Size contentType]
        match s3Client.PutObject store bucketName objectName file fileHeader.Size contentType with
        | (Except.error err, store) =>
          { w := Error w ("Failed to upload file: " ++ err) StatusInternalServerError,
            store := store, calls := calls, log := log ++ ["Failed to upload file: " ++ err] }
        | (Except.ok info, store) =>
          let log := log ++ ["File uploaded successfully: " ++ objectName ++ " to bucket "
            ++ bucketName ++ ", size: " ++ fmtInt info.Size ++ " bytes"]
          let response : Response :=
            { Message := "Uploaded " ++ objectName ++ " to bucket " ++ bucketName ++ ", size: "
                ++ fmtInt info.Size ++ " bytes" }
          let w := w.SetHeader "Content-Type" "application/json"
          let w := w.WriteHeader StatusOK
          { w := Encode w response.marshal, store := store, calls := calls, log := log }

/-- The loop `for object := range objectCh` of `listObjectsHandler` (lines 136 to
144): the keys are appended to `objects` until the channel is closed; the first
entry with an error ends the loop with that error. -/
def rangeObjects : List ObjectInfo → StringSlice → List String →
    Except String StringSlice × List String
  | [], objects, log => (Except.ok objects, log)
  | object :: objectCh, objects, log =>
    match object.Err with
    | some err => (Except.error err, log ++ ["Error listing object: " ++ err])
    | none =>
      rangeObjects objectCh (objects.append object.Key) (log ++ ["Found object: " ++ object.Key])

/-- The handler `listObjectsHandler` (lines 116 to 158). -/
def listObjectsHandler (s3Client : StorageClient σ) (store : σ) (w : ResponseWriter)
    (r : Request) : Outcome σ :=
  let log := ["Handling list objects request"]
  let bucketName := r.query.Get "bucket"
  if bucketName = "" then
    { w := Error w "Bucket name is required" StatusBadRequest, store := store, calls := [],
      log := log ++ ["Bucket name is missing in the request"] }
  else
    let log := log ++ ["Received bucket name: " ++ bucketName]
    let log := log ++ ["Listing objects in bucket " ++ bucketName]
    let objectCh := s3Client.ListObjects store bucketName true
    let calls := [Call.ListObjects bucketName true]
    match rangeObjects objectCh none log with
    | (Except.error err, log) =>
      { w := Error w ("Error listing objects: " ++ err) StatusInternalServerError,
        store := store, calls := calls, log := log }
    | (Except.ok objects, log) =>
      let response : Response :=
        { Message := "Listed " ++ fmtInt objects.len ++ " objects in bucket " ++ bucketName }
      let w := w.SetHeader "Content-Type" "application/json"
      let w := w.WriteHeader StatusOK
      { w := Encode w [("message", JsonValue.string response.Message),
                       ("objects", marshalStrings objects)],
        store := store, calls := calls, log := log }

/-- The handler `downloadHandler` (lines 160 to 196).  The deferred
`object.Close()` has no effect on the response and is left out. -/
def downloadHandler (s3Client : StorageClient σ) (store : σ) (w : ResponseWriter)
    (r : Request) : Outcome σ :=
  let log := ["Handling file download request"]
  let bucketName := r.query.Get "bucket"
  let objectName := r.query.Get "object"
  if bucketName = "" ∨ objectName = "" then
    { w := Error w "Bucket and object names are required" StatusBadRequest, store := store,
      calls := [], log := log ++ ["Bucket or object name is missing in the request"] }
  else
    let log := log ++ ["Received bucket name: " ++ bucketName ++ ", object name: " ++ objectName]
    let log := log ++ ["Downloading object " ++ objectName ++ " from bucket " ++ bucketName]
    let calls := [Call.GetObject bucketName objectName]
    match s3Client.GetObject store bucketName objectName with
    | Except.error err =>
      { w := Error w ("Failed to download object: " ++ err) StatusInternalServerError,
        store := store, calls := calls, log := log ++ ["Failed to download object: " ++ err] }
    | Except.ok object =>
      let w := w.SetHeader "Content-Disposition" ("attachment; filename=" ++ objectName)
      let w := w.SetHeader "Content-Type" "application/octet-stream"
      let log := log ++ ["Streaming object data to response"]
      match Copy w object with
      | (w, some err) =>
        { w := Error w ("Error streaming object data: " ++ err) StatusInternalServerError,
          store := store, calls := calls, log := log ++ ["Error streaming object data: " ++ err] }
      | (w, none) =>
        { w := w, store := store, calls := calls,
          log := log ++ ["Object downloaded successfully: " ++ objectName] }

/-! ## A backend that is a map from (bucket, key) to bytes -/

/-- The objects of the backend: the first entry for a (bucket, key) pair is the
stored one. -/
abbrev Store := List ((String × String) × List Byte)

/-- The bytes stored under (bucket, key), if any. -/
def Store.get (s : Store) (bucket key : String) : Option (List Byte) :=
  (s.find? (fun e => decide (e.1 = (bucket, key)))).map (fun e => e.2)

/-- Storing bytes under (bucket, key) replaces what was there. -/
def Store.put (s : Store) (bucket key : String) (data : List Byte) : Store :=
  ((bucket, key), data) :: s.filter (fun e => !decide (e.1 = (bucket, key)))

/-- The storage client over a `Store`: `PutObject` stores the bytes and reports
their number, `ListObjects` yields the keys of the bucket, and `GetObject` gives
a reader over the stored bytes; as in `minio-go`, the reader of an absent object
is returned without error and fails at its first read. -/
def mapClient : StorageClient Store where
  PutObject := fun s bucketName objectName data _ _ =>
    (Except.ok { Bucket := bucketName, Key := objectName, Size := data.length },
      s.put bucketName objectName data)
  ListObjects := fun s bucketName _ =>
    (s.filter (fun e => decide (e.1.1 = bucketName))).map
      (fun e => { Key := e.1.2, Err := none })
  GetObject := fun s bucketName objectName =>
    match s.get bucketName objectName with
    | some data => Except.ok { data := data, err := none }
    | none => Except.ok { data := [], err := some "The specified key does not exist." }

/-! ## Requests and clients used as concrete inputs -/

/-- A storage client without state whose three methods give fixed results. -/
def fixedClient (put : Except String UploadInfo) (list : List ObjectInfo)
    (get : Except String ObjectReader) : StorageClient Unit where
  PutObject := fun s _ _ _ _ _ => (put, s)
  ListObjects := fun _ _ _ => list
  GetObject := fun _ _ _ => get

/-- A request with the given query values and a body that is not a multipart
form. -/
def getRequest (query : Values) : Request :=
  { query := query, queryErr := none, parts := Except.error "request Content-Type is not multipart/form-data" }

/-- A multipart request with the given parts and no query string. -/
def postRequest (parts : List Part) : Request :=
  { query := Values.empty, queryErr := none, parts := Except.ok parts }

/-- A part that is a form value. -/
def valuePart (name : String) (content : List Byte) : Part :=
  { FormName := name, filename := "", Header := [], content := content }

/-- A part that is a file with the given content type. -/
def filePart (name filename contentType : String) (content : List Byte) : Part :=
  { FormName := name, filename := filename,
    Header := [("Content-Type", [contentType])], content := content }

/-- The upload of the scenario of section 8 of the specification: bucket
"test", file "a.txt" with the five bytes of "hello". -/
def helloUpload : Request :=
  postRequest [valuePart "bucket" [116, 101, 115, 116],
    filePart "file" "a.txt" "text/plain" [104, 101, 108, 108, 111]]

/-- An upload to bucket "test" of the five bytes of "hello", submitted with the
file name "docs/b.txt". -/
def nestedUpload : Request :=
  postRequest [valuePart "bucket" [116, 101, 115, 116],
    filePart "file" "docs/b.txt" "text/plain" [104, 101, 108, 108, 111]]

/-- An upload to bucket "test" of one file, named "big.bin". -/
def fileUpload (content : List Byte) : Request :=
  postRequest [valuePart "bucket" [116, 101, 115, 116],
    filePart "file" "big.bin" "application/octet-stream" content]

/-- The bytes of a file one byte longer than 10 MiB. -/
def oversizedContent : List Byte := List.replicate (10 <<< 20 + 1) 0

/-- The relation between a part and the file header `ReadForm` builds for it: the
part has a form name and a file name, and the header carries the file name, the
MIME header, the bytes and their number. -/
def FileHeader.fromPart (fh : FileHeader) (p : Part) : Prop :=
  p.FormName ≠ "" ∧ p.FileName ≠ "" ∧ fh.Filename = p.FileName ∧ fh.Header = p.Header ∧
    fh.content = p.content ∧ fh.Size = (p.content.length : Int)

/-! ## Lemmas on the library calls and on the loop of the list handler -/

/-- `Get` gives the empty string for a key that is missing or whose first value is
empty. -/
theorem Values.Get_eq_empty_of_missing_or_empty {v : Values} {key : String}
    (h : v key = [] ∨ (v key).head? = some "") : v.Get key = "" := by
  unfold Values.Get
  rcases h with h | h
  · rw [h]
  · cases hv : v key with
    | nil => rfl
    | cons x xs => rw [hv] at h; simpa using h

/-- On a channel without error entries the loop appends every key, in order, and
logs each of them. -/
theorem rangeObjects_error_free (es : List ObjectInfo) (h : ∀ e ∈ es, e.Err = none)
    (objects : StringSlice) (log : List String) :
    rangeObjects es objects log
      = (Except.ok ((es.map ObjectInfo.Key).foldl StringSlice.append objects),
         log ++ es.map (fun e => "Found object: " ++ e.Key)) := by
  induction es generalizing objects log with
  | nil => simp [rangeObjects]
  | cons e es ih =>
    have he : e.Err = none := h e (List.mem_cons_self _ _)
    have hes : ∀ x ∈ es, x.Err = none := fun x hx => h x (List.mem_cons_of_mem _ hx)
    simp [rangeObjects, he, ih hes]

/-- The loop ends at the first entry with an error: the entries after it are not
looked at, and the keys before it are dropped with the slice. -/
theorem rangeObjects_first_error (pre post : List ObjectInfo) (e : ObjectInfo) (err : String)
    (h : ∀ x ∈ pre, x.Err = none) (he : e.Err = some err)
    (objects : StringSlice) (log : List String) :
    rangeObjects (pre ++ e :: post) objects log
      = (Except.error err,
         log ++ pre.map (fun x => "Found object: " ++ x.Key) ++ ["Error listing object: " ++ err]) := by
  induction pre generalizing objects log with
  | nil => simp [rangeObjects, he]
  | cons x pre ih =>
    have hx : x.Err = none := h x (List.mem_cons_self _ _)
    have hpre : ∀ y ∈ pre, y.Err = none := fun y hy => h y (List.mem_cons_of_mem _ hy)
    simp [rangeObjects, hx, ih hpre]

/-- Appending keys one by one to a non-nil slice. -/
theorem StringSlice.foldl_append_some (keys : List String) (xs : List String) :
    keys.foldl StringSlice.append (some xs) = some (xs ++ keys) := by
  induction keys generalizing xs with
  | nil => simp
  | cons k keys ih => simp [StringSlice.append, ih]

/-- Appending keys one by one to the nil slice: it stays nil when there is no key. -/
theorem StringSlice.foldl_append_nil (keys : List String) :
    keys.foldl StringSlice.append none = if keys = [] then none else some keys := by
  cases keys with
  | nil => simp
  | cons k keys => simp [StringSlice.append, StringSlice.foldl_append_some]

/-- The file name `FileName()` reports is not empty exactly when one was
submitted, and is then its base name. -/
theorem Part.FileName_eq_Base (p : Part) (h : p.FileName ≠ "") :
    p.filename ≠ "" ∧ p.FileName = Base p.filename := by
  unfold Part.FileName at h ⊢
  by_cases hf : p.filename = ""
  · simp [hf] at h
  · simp [hf]

/-- Every file header in the form `ReadForm` returns was there at the start or was
built from a part of the body with the same form name. -/
theorem readFormLoop_files (ps : List Part) (form out : MultipartForm)
    (maxParts maxMemoryBytes maxFileMemoryBytes : Int)
    (hloop : readFormLoop ps form maxParts maxMemoryBytes maxFileMemoryBytes = Except.ok out)
    (key : String) (fh : FileHeader) (hfh : fh ∈ out.File key) :
    fh ∈ form.File key ∨ ∃ p ∈ ps, p.FormName = key ∧ fh.fromPart p := by
  induction ps generalizing form maxParts maxMemoryBytes maxFileMemoryBytes with
  | nil =>
    simp only [readFormLoop, Except.ok.injEq] at hloop
    subst hloop
    exact Or.inl hfh
  | cons p ps ih =>
    have hfile : ∀ (onDisk : Bool) (a b c : Int),
        readFormLoop ps
          { form with
            File := fun k => if k = p.FormName then form.File k ++
              [{ Filename := p.FileName, Header := p.Header, Size := p.content.length,
                 content := p.content, onDisk := onDisk }] else form.File k } a b c
          = Except.ok out →
        p.FormName ≠ "" → p.FileName ≠ "" →
        fh ∈ form.File key ∨ ∃ q ∈ p :: ps, q.FormName = key ∧ fh.fromPart q := by
      intro onDisk a b c hl hname hfn
      rcases ih _ _ _ _ hl with h | ⟨q, hq, hk⟩
      · by_cases hkey : key = p.FormName
        · simp only [hkey, if_true, List.mem_append, List.mem_singleton] at h
          rcases h with h | h
          · exact Or.inl (hkey ▸ h)
          · refine Or.inr ⟨p, List.mem_cons_self _ _, hkey.symm, ?_⟩
            subst h
            exact ⟨hname, hfn, rfl, rfl, rfl, rfl⟩
        · simp only [hkey, if_false] at h
          exact Or.inl h
      · exact Or.inr ⟨q, List.mem_cons_of_mem _ hq, hk⟩
    have hsame : ∀ (form' : MultipartForm) (a b c : Int),
        readFormLoop ps form' a b c = Except.ok out → form'.File = form.File →
        fh ∈ form.File key ∨ ∃ q ∈ p :: ps, q.FormName = key ∧ fh.fromPart q := by
      intro form' a b c hl hf
      rcases ih _ _ _ _ hl with h | ⟨q, hq, hk⟩
      · exact Or.inl (hf ▸ h)
      · exact Or.inr ⟨q, List.mem_cons_of_mem _ hq, hk⟩
    unfold readFormLoop at hloop
    split at hloop
    · exact absurd hloop (by simp)
    · split at hloop
      · exact hsame _ _ _ _ hloop rfl
      · split at hloop
        · exact absurd hloop (by simp)
        · split at hloop
          · dsimp only at hloop
            split at hloop
            · exact absurd hloop (by simp)
            · exact hsame _ _ _ _ hloop rfl
          · dsimp only at hloop
            split at hloop
            · exact absurd hloop (by simp)
            · split at hloop
              · exact hfile true _ _ _ hloop (by assumption) (by assumption)
              · exact hfile false _ _ _ hloop (by assumption) (by assumption)

/-- Every file header of a parsed request was built from a part of the body. -/
theorem ParseMultipartForm_files (r : Request) (maxMemory : Int) (pr : ParsedRequest)
    (hparse : ParseMultipartForm r maxMemory = Except.ok pr)
    (key : String) (fh : FileHeader) (hfh : fh ∈ pr.MultipartForm.File key) :
    ∃ ps, r.parts = Except.ok ps ∧ ∃ p ∈ ps, p.FormName = key ∧ fh.fromPart p := by
  unfold ParseMultipartForm at hparse
  cases hps : r.parts with
  | error e => simp [hps] at hparse
  | ok ps =>
    simp only [hps] at hparse
    cases hrf : ReadForm ps maxMemory with
    | error e => simp [hrf] at hparse
    | ok f =>
      simp only [hrf] at hparse
      cases hq : r.queryErr with
      | some e => simp [hq] at hparse
      | none =>
        simp only [hq, Except.ok.injEq] at hparse
        subst hparse
        unfold ReadForm at hrf
        rcases readFormLoop_files ps _ _ _ _ _ hrf key fh hfh with h | h
        · simp at h
        · exact ⟨ps, rfl, h⟩

/-- The file header `FormFile` returns was built from a part of the body; its file
name is therefore not empty. -/
theorem FormFile_fromPart (r : Request) (maxMemory : Int) (pr : ParsedRequest)
    (hparse : ParseMultipartForm r maxMemory = Except.ok pr)
    (key : String) (fh : FileHeader) (hfile : pr.FormFile key = Except.ok fh) :
    ∃ ps, r.parts = Except.ok ps ∧ ∃ p ∈ ps, p.FormName = key ∧ fh.fromPart p := by
  apply ParseMultipartForm_files r maxMemory pr hparse key fh
  unfold ParsedRequest.FormFile at hfile
  cases hl : pr.MultipartForm.File key with
  | nil => simp [hl] at hfile
  | cons x xs =>
    simp only [hl, Except.ok.injEq] at hfile
    subst hfile
    exact List.mem_cons_self _ _

/-- Reading back what was just stored. -/
theorem Store.get_put (s : Store) (bucket key : String) (data : List Byte) :
    (s.put bucket key data).get bucket key = some data := by
  simp [Store.get, Store.put]

/-- The length of `oversizedContent`. -/
theorem oversizedContent_length : oversizedContent.length = 10485761 := by
  unfold oversizedContent
  rw [List.length_replicate]
  rfl

/-- `ParseMultipartForm(10 << 20)` accepts a file part longer than 10 MiB: the
part goes to a temporary file. -/
theorem ParseMultipartForm_fileUpload_large (content : List Byte)
    (hlarge : 10 <<< 20 < content.length) :
    ParseMultipartForm (fileUpload content) ((10 <<< 20 : Nat) : Int) = Except.ok
      { Form := fun k => Values.empty k ++ (Values.empty.Add "bucket" ["test"]) k,
        MultipartForm :=
          { Value := Values.empty.Add "bucket" ["test"],
            File := fun k => if k = "file" then
              [{ Filename := "big.bin",
                 Header := [("Content-Type", ["application/octet-stream"])],
                 Size := content.length, content := content, onDisk := true }]
              else [] } } := by
  have hb : goString [116, 101, 115, 116] = "test" := by decide
  have hlarge' : (10485760 : Int) < (content.length : Int) := by
    have : (10485760 : Nat) < content.length := hlarge
    exact_mod_cast this
  have hmin : min (content.length : Int) (10485760 + 1) = 10485760 + 1 := by
    apply min_eq_right
    omega
  have hn : 10485760 < content.length := hlarge
  have hbase : Part.FileName (filePart "file" "big.bin" "application/octet-stream" content)
      = "big.bin" := by
    have hbig : Base "big.bin" = "big.bin" := by decide
    simp [Part.FileName, filePart, hbig]
  have hvalue : Part.FileName (valuePart "bucket" [116, 101, 115, 116]) = "" := rfl
  have hwrap : wrapInt64 20971520 = 20971520 := by decide
  have hsize : mimeHeaderSize [("Content-Type", ["application/octet-stream"])] = 636 := by
    decide
  have hname1 : ("bucket".length : Int) = 6 := by decide
  have hname2 : ("file".length : Int) = 4 := by decide
  unfold ParseMultipartForm fileUpload postRequest ReadForm
  simp only [readFormLoop, hbase, hvalue]
  simp [valuePart, filePart, hb, hmin, hn, hwrap, hsize, hname1, hname2, MaxInt64,
    mapEntryOverhead, fileHeaderSize]

/-- The upload handler stores a file longer than 10 MiB like any other file. -/
theorem uploadHandler_fileUpload_large (store : Store) (content : List Byte)
    (hlarge : 10 <<< 20 < content.length) :
    (uploadHandler mapClient store newResponseWriter (fileUpload content)).w.status = 200 ∧
    (uploadHandler mapClient store newResponseWriter (fileUpload content)).calls
      = [Call.PutObject "test" "big.bin" content content.length "application/octet-stream"] ∧
    (uploadHandler mapClient store newResponseWriter (fileUpload content)).store.get
        "test" "big.bin" = some content := by
  refine ⟨?_, ?_, ?_⟩
  · unfold uploadHandler
    rw [ParseMultipartForm_fileUpload_large content hlarge]
    simp [ParsedRequest.FormValue, ParsedRequest.FormFile, Values.Get, Values.Add, Values.empty,
      mapClient, Encode, ResponseWriter.Write, ResponseWriter.WriteHeader,
      ResponseWriter.SetHeader, ResponseWriter.status, newResponseWriter, StatusOK]
  · unfold uploadHandler
    rw [ParseMultipartForm_fileUpload_large content hlarge]
    simp [ParsedRequest.FormValue, ParsedRequest.FormFile, Values.Get, Values.Add, Values.empty,
      Values.Set, mapClient, MIMEHeader.Get, List.lookup]
  · unfold uploadHandler
    rw [ParseMultipartForm_fileUpload_large content hlarge]
    simp [ParsedRequest.FormValue, ParsedRequest.FormFile, Values.Get, Values.Add, Values.empty,
      mapClient, Store.get_put]

/-! ## The claims -/

/-- Claim C1: over the backend that is a map from (bucket, key) to bytes, when the
multipart body of an upload parses, its bucket value is not empty and it has a
file part with file name `fileHeader.Filename` and content `fileHeader.content`
of at most 10 MiB, `uploadHandler` answers 200, and a download that follows with
query `bucket` equal to that bucket and `object` equal to that file name answers
200 with a body that is exactly the content. -/
theorem upload_then_download_returns_the_content
    (store : Store) (r rd : Request) (pr : ParsedRequest) (fileHeader : FileHeader)
    (hparse : ParseMultipartForm r ((10 <<< 20 : Nat) : Int) = Except.ok pr)
    (hbucket : pr.FormValue "bucket" ≠ "")
    (hfile : pr.FormFile "file" = Except.ok fileHeader)
    (_hsize : fileHeader.content.length ≤ 10 <<< 20)
    (hqb : rd.query.Get "bucket" = pr.FormValue "bucket")
    (hqo : rd.query.Get "object" = fileHeader.Filename) :
    (uploadHandler mapClient store newResponseWriter r).w.status = 200 ∧
    (downloadHandler mapClient (uploadHandler mapClient store newResponseWriter r).store
        newResponseWriter rd).w.status = 200 ∧
    (downloadHandler mapClient (uploadHandler mapClient store newResponseWriter r).store
        newResponseWriter rd).w.body = fileHeader.content.map BodyItem.byte := by
  obtain ⟨ps, _, p, _, _, _, hne, hname, _⟩ :=
    FormFile_fromPart r _ pr hparse "file" fileHeader hfile
  have hobj : fileHeader.Filename ≠ "" := by rw [hname]; exact hne
  have hup : (uploadHandler mapClient store newResponseWriter r).store
      = store.put (pr.FormValue "bucket") fileHeader.Filename fileHeader.content := by
    unfold uploadHandler
    rw [hparse]
    simp only [hbucket, if_false, hfile]
    rfl
  refine ⟨?_, ?_, ?_⟩
  · unfold uploadHandler
    rw [hparse]
    simp only [hbucket, if_false, hfile]
    simp [mapClient, Encode, ResponseWriter.Write, ResponseWriter.WriteHeader,
      ResponseWriter.SetHeader, ResponseWriter.status, newResponseWriter, StatusOK]
  · rw [hup]
    unfold downloadHandler
    simp only [hqb, hqo, hbucket, hobj, or_self, if_false, mapClient, Store.get_put, Copy]
    cases fileHeader.content <;>
      simp [ResponseWriter.Write, ResponseWriter.WriteHeader, ResponseWriter.SetHeader,
        ResponseWriter.status, newResponseWriter]
  · rw [hup]
    unfold downloadHandler
    simp only [hqb, hqo, hbucket, hobj, or_self, if_false, mapClient, Store.get_put, Copy]
    cases fileHeader.content <;>
      simp [ResponseWriter.Write, ResponseWriter.WriteHeader, ResponseWriter.SetHeader,
        newResponseWriter]

/-- Claim C1 at the upload of "a.txt" with content "hello" to bucket "test". -/
theorem upload_then_download_returns_the_content_witness :
    (uploadHandler mapClient [] newResponseWriter helloUpload).w.status = 200 ∧
    (downloadHandler mapClient (uploadHandler mapClient [] newResponseWriter helloUpload).store
        newResponseWriter
        (getRequest ((Values.empty.Set "bucket" "test").Set "object" "a.txt"))).w.status = 200 ∧
    (downloadHandler mapClient (uploadHandler mapClient [] newResponseWriter helloUpload).store
        newResponseWriter
        (getRequest ((Values.empty.Set "bucket" "test").Set "object" "a.txt"))).w.body
      = [BodyItem.byte 104, BodyItem.byte 101, BodyItem.byte 108, BodyItem.byte 108,
         BodyItem.byte 111] :=
  upload_then_download_returns_the_content [] helloUpload
    (getRequest ((Values.empty.Set "bucket" "test").Set "object" "a.txt"))
    _ { Filename := "a.txt", Header := [("Content-Type", ["text/plain"])], Size := 5,
        content := [104, 101, 108, 108, 111], onDisk := false }
    rfl (by decide) rfl (by decide) (by decide) (by decide)

/-- Claim C2: when the multipart body of an upload fails to parse, or its `bucket`
form value is empty, or it has no `file` part, `uploadHandler` answers 400, makes
no call on the storage client (so no `PutObject`) and leaves the backend state as
it was. -/
theorem invalid_upload_is_bad_request_without_PutObject
    (s3Client : StorageClient σ) (store : σ) (r : Request)
    (h : (∃ err, ParseMultipartForm r ((10 <<< 20 : Nat) : Int) = Except.error err) ∨
         (∃ pr, ParseMultipartForm r ((10 <<< 20 : Nat) : Int) = Except.ok pr ∧
            (pr.FormValue "bucket" = "" ∨ pr.MultipartForm.File "file" = []))) :
    (uploadHandler s3Client store newResponseWriter r).w.status = 400 ∧
    (uploadHandler s3Client store newResponseWriter r).calls = [] ∧
    (uploadHandler s3Client store newResponseWriter r).store = store := by
  rcases h with ⟨err, he⟩ | ⟨pr, hp, hb | hf⟩
  · unfold uploadHandler
    rw [he]
    simp [Error, ResponseWriter.Write, ResponseWriter.WriteHeader,
      ResponseWriter.SetHeader, ResponseWriter.status, newResponseWriter, StatusBadRequest]
  · unfold uploadHandler
    rw [hp]
    simp [hb, Error, ResponseWriter.Write, ResponseWriter.WriteHeader,
      ResponseWriter.SetHeader, ResponseWriter.status, newResponseWriter, StatusBadRequest]
  · unfold uploadHandler
    rw [hp]
    by_cases hb : pr.FormValue "bucket" = ""
    · simp [hb, Error, ResponseWriter.Write, ResponseWriter.WriteHeader,
        ResponseWriter.SetHeader, ResponseWriter.status, newResponseWriter, StatusBadRequest]
    · simp [hb, ParsedRequest.FormFile, hf, Error, ResponseWriter.Write,
        ResponseWriter.WriteHeader, ResponseWriter.SetHeader, ResponseWriter.status,
        newResponseWriter, StatusBadRequest]

/-- Claim C2 at an upload that names the bucket "test" and has no file part. -/
theorem invalid_upload_is_bad_request_without_PutObject_witness :
    (uploadHandler mapClient [] newResponseWriter
        (postRequest [valuePart "bucket" [116, 101, 115, 116]])).w.status = 400 ∧
    (uploadHandler mapClient [] newResponseWriter
        (postRequest [valuePart "bucket" [116, 101, 115, 116]])).calls = [] ∧
    (uploadHandler mapClient [] newResponseWriter
        (postRequest [valuePart "bucket" [116, 101, 115, 116]])).store = [] :=
  invalid_upload_is_bad_request_without_PutObject mapClient []
    (postRequest [valuePart "bucket" [116, 101, 115, 116]])
    (Or.inr ⟨_, rfl, Or.inr rfl⟩)

/-- Claim C3 at an upload whose file part is one byte longer than 10 MiB: the body
exceeds 10 MiB, and `uploadHandler` answers 200, calls `PutObject` with the whole
file, and the object is in the backend afterwards.  The claim says 400 and no
`PutObject`. -/
theorem upload_over_10MiB_is_stored :
    10 <<< 20 < oversizedContent.length ∧
    (uploadHandler mapClient [] newResponseWriter (fileUpload oversizedContent)).w.status = 200 ∧
    (uploadHandler mapClient [] newResponseWriter (fileUpload oversizedContent)).calls
      = [Call.PutObject "test" "big.bin" oversizedContent oversizedContent.length
          "application/octet-stream"] ∧
    (uploadHandler mapClient [] newResponseWriter (fileUpload oversizedContent)).store.get
        "test" "big.bin" = some oversizedContent :=
  have hlarge : 10 <<< 20 < oversizedContent.length := by
    rw [oversizedContent_length]; decide
  ⟨hlarge, uploadHandler_fileUpload_large [] oversizedContent hlarge⟩

/-- Claim C4 fails as stated: for a file part submitted with the file name
"docs/b.txt" the handler calls `PutObject` with the object key "b.txt" and reports
"Uploaded b.txt ...": the key is not the submitted file name verbatim. -/
theorem upload_key_is_not_the_submitted_filename :
    (uploadHandler mapClient [] newResponseWriter nestedUpload).w.status = 200 ∧
    (uploadHandler mapClient [] newResponseWriter nestedUpload).calls
      = [Call.PutObject "test" "b.txt" [104, 101, 108, 108, 111] 5 "text/plain"] ∧
    (uploadHandler mapClient [] newResponseWriter nestedUpload).calls
      ≠ [Call.PutObject "test" "docs/b.txt" [104, 101, 108, 108, 111] 5 "text/plain"] ∧
    (uploadHandler mapClient [] newResponseWriter nestedUpload).w.body
      = [BodyItem.json [("message",
          JsonValue.string "Uploaded b.txt to bucket test, size: 5 bytes")]] := by
  decide

/-- Claim C4 as amended: when an upload passes validation (the body parses, the
bucket value is not empty, there is a file part) and `PutObject` succeeds with
`info`, `uploadHandler` makes exactly one call on the storage client, a
`PutObject` with the submitted bucket, the object key `fileHeader.Filename`, the
bytes and the declared size of the part and its `Content-Type` header (the empty
string when the header is absent), and answers 200 with the JSON document whose
`message` is "Uploaded <key> to bucket <bucket>, size: <n> bytes", `n` being
`info.Size`.  The key is the base name of the file name submitted with a part
named `file`: its last path element, directories removed. -/
theorem upload_success_calls_PutObject_once_with_base_name
    (s3Client : StorageClient σ) (store store' : σ) (r : Request) (pr : ParsedRequest)
    (fileHeader : FileHeader) (info : UploadInfo)
    (hparse : ParseMultipartForm r ((10 <<< 20 : Nat) : Int) = Except.ok pr)
    (hbucket : pr.FormValue "bucket" ≠ "")
    (hfile : pr.FormFile "file" = Except.ok fileHeader)
    (hput : s3Client.PutObject store (pr.FormValue "bucket") fileHeader.Filename
        fileHeader.content fileHeader.Size (fileHeader.Header.Get "Content-Type")
      = (Except.ok info, store')) :
    (uploadHandler s3Client store newResponseWriter r).calls
      = [Call.PutObject (pr.FormValue "bucket") fileHeader.Filename fileHeader.content
          fileHeader.Size (fileHeader.Header.Get "Content-Type")] ∧
    (fileHeader.Header.lookup "Content-Type" = none →
      fileHeader.Header.Get "Content-Type" = "") ∧
    (uploadHandler s3Client store newResponseWriter r).w.status = 200 ∧
    (uploadHandler s3Client store newResponseWriter r).w.body
      = [BodyItem.json [("message", JsonValue.string ("Uploaded " ++ fileHeader.Filename
          ++ " to bucket " ++ pr.FormValue "bucket" ++ ", size: " ++ fmtInt info.Size
          ++ " bytes"))]] ∧
    (uploadHandler s3Client store newResponseWriter r).w.sentHeader "Content-Type"
      = ["application/json"] ∧
    (uploadHandler s3Client store newResponseWriter r).store = store' ∧
    (∃ ps, r.parts = Except.ok ps ∧ ∃ p ∈ ps, p.FormName = "file" ∧ p.filename ≠ "" ∧
      fileHeader.Filename = Base p.filename ∧ fileHeader.Header = p.Header ∧
      fileHeader.content = p.content ∧ fileHeader.Size = (p.content.length : Int)) := by
  have hpart : ∃ ps, r.parts = Except.ok ps ∧ ∃ p ∈ ps, p.FormName = "file" ∧
      p.filename ≠ "" ∧ fileHeader.Filename = Base p.filename ∧
      fileHeader.Header = p.Header ∧ fileHeader.content = p.content ∧
      fileHeader.Size = (p.content.length : Int) := by
    obtain ⟨ps, hps, p, hp, hname, _, hfn, hF, hH, hc, hS⟩ :=
      FormFile_fromPart r _ pr hparse "file" fileHeader hfile
    obtain ⟨hsub, hbase⟩ := Part.FileName_eq_Base p hfn
    exact ⟨ps, hps, p, hp, hname, hsub, hF.trans hbase, hH, hc, hS⟩
  unfold uploadHandler
  rw [hparse]
  simp only [hbucket, if_false, hfile, hput]
  refine ⟨trivial, ?_, ?_, ?_, ?_, trivial, hpart⟩
  · intro h
    simp [MIMEHeader.Get, h]
  · simp [Encode, ResponseWriter.Write, ResponseWriter.WriteHeader, ResponseWriter.SetHeader,
      ResponseWriter.status, newResponseWriter, StatusOK]
  · simp [Encode, ResponseWriter.Write, ResponseWriter.WriteHeader, ResponseWriter.SetHeader,
      newResponseWriter, StatusOK, Response.marshal]
  · simp [Encode, ResponseWriter.Write, ResponseWriter.WriteHeader, ResponseWriter.SetHeader,
      ResponseWriter.sentHeader, newResponseWriter, StatusOK, Values.Set]

/-- Claim C4 as amended, at the upload of a file submitted as "docs/b.txt" with
content "hello" to bucket "test": the key is "b.txt". -/
theorem upload_success_calls_PutObject_once_with_base_name_witness :
    (uploadHandler mapClient [] newResponseWriter nestedUpload).calls
      = [Call.PutObject "test" (Base "docs/b.txt") [104, 101, 108, 108, 111] 5 "text/plain"] ∧
    (uploadHandler mapClient [] newResponseWriter nestedUpload).w.status = 200 :=
  have h := upload_success_calls_PutObject_once_with_base_name mapClient []
    (Store.put [] "test" "b.txt" [104, 101, 108, 108, 111]) nestedUpload
    _ { Filename := Base "docs/b.txt", Header := [("Content-Type", ["text/plain"])], Size := 5,
        content := [104, 101, 108, 108, 111], onDisk := false }
    { Bucket := "test", Key := "b.txt", Size := 5 } rfl (by decide) rfl rfl
  ⟨h.1, h.2.2.1⟩

/-- Claim C5: for a non-empty bucket name and an enumeration without error entries,
`listObjectsHandler` answers 200 with one JSON document; its `objects` member
encodes a slice whose elements are exactly the keys of the entries, in the order
of the enumeration, and whose length is the number N of entries, and its
`message` is "Listed N objects in bucket <bucket>".  When N is not zero the
`objects` member is the array of those keys. -/
theorem list_returns_all_keys_in_order
    (s3Client : StorageClient σ) (store : σ) (r : Request)
    (hb : r.query.Get "bucket" ≠ "")
    (hok : ∀ e ∈ s3Client.ListObjects store (r.query.Get "bucket") true, e.Err = none) :
    ∃ objects : StringSlice,
      objects.elems = (s3Client.ListObjects store (r.query.Get "bucket") true).map ObjectInfo.Key ∧
      objects.len = (s3Client.ListObjects store (r.query.Get "bucket") true).length ∧
      (s3Client.ListObjects store (r.query.Get "bucket") true ≠ [] →
        marshalStrings objects = JsonValue.array
          ((s3Client.ListObjects store (r.query.Get "bucket") true).map ObjectInfo.Key)) ∧
      (listObjectsHandler s3Client store newResponseWriter r).w.status = 200 ∧
      (listObjectsHandler s3Client store newResponseWriter r).w.body =
        [BodyItem.json
          [("message", JsonValue.string ("Listed "
              ++ fmtInt ((s3Client.ListObjects store (r.query.Get "bucket") true).length : Nat)
              ++ " objects in bucket " ++ r.query.Get "bucket")),
           ("objects", marshalStrings objects)]] := by
  generalize hes : s3Client.ListObjects store (r.query.Get "bucket") true = es at hok
  refine ⟨(es.map ObjectInfo.Key).foldl StringSlice.append none, ?_, ?_, ?_, ?_, ?_⟩
  · rw [StringSlice.foldl_append_nil]
    cases es <;> simp [StringSlice.elems]
  · rw [StringSlice.foldl_append_nil]
    cases es <;> simp [StringSlice.len]
  · intro hne
    rw [StringSlice.foldl_append_nil]
    cases es with
    | nil => exact absurd rfl hne
    | cons e es => simp [marshalStrings]
  · unfold listObjectsHandler
    simp only [hb, if_false, hes, rangeObjects_error_free es hok]
    simp [Encode, ResponseWriter.Write, ResponseWriter.WriteHeader, ResponseWriter.SetHeader,
      ResponseWriter.status, newResponseWriter, StatusOK]
  · have hlen : ((es.map ObjectInfo.Key).foldl StringSlice.append none).len = es.length := by
      rw [StringSlice.foldl_append_nil]
      cases es <;> simp [StringSlice.len]
    unfold listObjectsHandler
    simp only [hb, if_false, hes, rangeObjects_error_free es hok]
    simp [Encode, ResponseWriter.Write, ResponseWriter.WriteHeader, ResponseWriter.SetHeader,
      newResponseWriter, StatusOK, hlen]

/-- Claim C5 at an enumeration of two keys, one under a nested path. -/
theorem list_returns_all_keys_in_order_witness :
    (listObjectsHandler
        (fixedClient (Except.error "unused")
          [{ Key := "docs/b.txt", Err := none }, { Key := "a.txt", Err := none }]
          (Except.error "unused"))
        () newResponseWriter (getRequest (Values.empty.Set "bucket" "test"))).w.body =
      [BodyItem.json
        [("message", JsonValue.string "Listed 2 objects in bucket test"),
         ("objects", JsonValue.array ["docs/b.txt", "a.txt"])]] := by
  obtain ⟨objects, _, _, harr, _, hbody⟩ := list_returns_all_keys_in_order
    (fixedClient (Except.error "unused")
      [{ Key := "docs/b.txt", Err := none }, { Key := "a.txt", Err := none }]
      (Except.error "unused"))
    () (getRequest (Values.empty.Set "bucket" "test")) (by decide) (by decide)
  rw [hbody, harr (by decide)]
  decide

/-- Claim C6 fails as stated: listing the empty bucket "empty" answers 200 with
`objects` encoded as `null`, which is not the empty array. -/
theorem list_empty_bucket_objects_is_null_not_empty_array :
    (listObjectsHandler mapClient [] newResponseWriter
        (getRequest (Values.empty.Set "bucket" "empty"))).w.status = 200 ∧
    (listObjectsHandler mapClient [] newResponseWriter
        (getRequest (Values.empty.Set "bucket" "empty"))).w.body
      = [BodyItem.json [("message", JsonValue.string "Listed 0 objects in bucket empty"),
                        ("objects", JsonValue.null)]] ∧
    (listObjectsHandler mapClient [] newResponseWriter
        (getRequest (Values.empty.Set "bucket" "empty"))).w.body
      ≠ [BodyItem.json [("message", JsonValue.string "Listed 0 objects in bucket empty"),
                        ("objects", JsonValue.array [])]] := by
  decide

/-- Claim C6 as amended: for a non-empty bucket name whose enumeration yields no
entries, `listObjectsHandler` answers 200 with message
"Listed 0 objects in bucket <bucket>" and an `objects` member that is `null`. -/
theorem list_empty_enumeration_encodes_null
    (s3Client : StorageClient σ) (store : σ) (r : Request)
    (hb : r.query.Get "bucket" ≠ "")
    (hempty : s3Client.ListObjects store (r.query.Get "bucket") true = []) :
    (listObjectsHandler s3Client store newResponseWriter r).w.status = 200 ∧
    (listObjectsHandler s3Client store newResponseWriter r).w.body =
      [BodyItem.json
        [("message", JsonValue.string ("Listed 0 objects in bucket " ++ r.query.Get "bucket")),
         ("objects", JsonValue.null)]] := by
  unfold listObjectsHandler
  simp only [hb, if_false, hempty, rangeObjects]
  have h0 : fmtInt (0 : Int) = "0" := by decide
  simp [Encode, ResponseWriter.Write, ResponseWriter.WriteHeader, ResponseWriter.SetHeader,
    ResponseWriter.status, newResponseWriter, StatusOK, StringSlice.len, marshalStrings, h0]

/-- Claim C6 as amended, at the empty bucket "test". -/
theorem list_empty_enumeration_encodes_null_witness :
    (listObjectsHandler mapClient [] newResponseWriter
        (getRequest (Values.empty.Set "bucket" "test"))).w.body =
      [BodyItem.json
        [("message", JsonValue.string "Listed 0 objects in bucket test"),
         ("objects", JsonValue.null)]] :=
  (list_empty_enumeration_encodes_null mapClient []
    (getRequest (Values.empty.Set "bucket" "test")) (by decide) rfl).2

/-- Claim C7: for a non-empty bucket name and an enumeration whose first entry with
an error carries the text `err`, `listObjectsHandler` answers 500 with the body
"Error listing objects: <err>" and nothing else: the response is the one
`http.Error` writes on a fresh writer, so it holds no JSON document, no key and
no 200 status, whatever the entries before and after the error; the log shows
that the loop read the entries before the error and none after it. -/
theorem list_error_entry_is_500_without_keys
    (s3Client : StorageClient σ) (store : σ) (r : Request)
    (pre post : List ObjectInfo) (e : ObjectInfo) (err : String)
    (hb : r.query.Get "bucket" ≠ "")
    (hch : s3Client.ListObjects store (r.query.Get "bucket") true = pre ++ e :: post)
    (hpre : ∀ x ∈ pre, x.Err = none) (he : e.Err = some err) :
    (listObjectsHandler s3Client store newResponseWriter r).w
      = Error newResponseWriter ("Error listing objects: " ++ err) 500 ∧
    (listObjectsHandler s3Client store newResponseWriter r).w.status = 500 ∧
    (listObjectsHandler s3Client store newResponseWriter r).w.body
      = [BodyItem.line ("Error listing objects: " ++ err)] ∧
    (listObjectsHandler s3Client store newResponseWriter r).log
      = ["Handling list objects request",
         "Received bucket name: " ++ r.query.Get "bucket",
         "Listing objects in bucket " ++ r.query.Get "bucket"]
        ++ pre.map (fun x => "Found object: " ++ x.Key)
        ++ ["Error listing object: " ++ err] := by
  unfold listObjectsHandler
  simp only [hb, if_false, hch, rangeObjects_first_error pre post e err hpre he]
  simp [Error, ResponseWriter.Write, ResponseWriter.WriteHeader, ResponseWriter.SetHeader,
    ResponseWriter.status, newResponseWriter, StatusInternalServerError]

/-- Claim C7 at an enumeration with one key before the error entry and one after. -/
theorem list_error_entry_is_500_without_keys_witness :
    (listObjectsHandler
        (fixedClient (Except.error "unused")
          [{ Key := "a.txt", Err := none }, { Key := "", Err := some "connection reset" },
           { Key := "b.txt", Err := none }]
          (Except.error "unused"))
        () newResponseWriter (getRequest (Values.empty.Set "bucket" "test"))).w.body
      = [BodyItem.line "Error listing objects: connection reset"] :=
  (list_error_entry_is_500_without_keys
    (fixedClient (Except.error "unused")
      [{ Key := "a.txt", Err := none }, { Key := "", Err := some "connection reset" },
       { Key := "b.txt", Err := none }]
      (Except.error "unused"))
    () (getRequest (Values.empty.Set "bucket" "test"))
    [{ Key := "a.txt", Err := none }] [{ Key := "b.txt", Err := none }]
    { Key := "", Err := some "connection reset" } "connection reset"
    (by decide) rfl (by decide) rfl).2.2.1

/-- Claim C8: for a download with non-empty bucket and object names for which
`GetObject` returns an error, `downloadHandler` answers 500 with the body
"Failed to download object: <err>"; the response has no `Content-Disposition`
header, and its `Content-Type` is the plain text one of `http.Error`, not
`application/octet-stream`. -/
theorem download_GetObject_error_is_500_without_attachment_headers
    (s3Client : StorageClient σ) (store : σ) (r : Request) (err : String)
    (hb : r.query.Get "bucket" ≠ "") (ho : r.query.Get "object" ≠ "")
    (hget : s3Client.GetObject store (r.query.Get "bucket") (r.query.Get "object")
      = Except.error err) :
    (downloadHandler s3Client store newResponseWriter r).w.status = 500 ∧
    (downloadHandler s3Client store newResponseWriter r).w.body
      = [BodyItem.line ("Failed to download object: " ++ err)] ∧
    (downloadHandler s3Client store newResponseWriter r).w.sentHeader "Content-Disposition" = [] ∧
    (downloadHandler s3Client store newResponseWriter r).w.sentHeader "Content-Type"
      = ["text/plain; charset=utf-8"] := by
  unfold downloadHandler
  simp only [hb, ho, or_self, if_false, hget]
  simp [Error, ResponseWriter.Write, ResponseWriter.WriteHeader, ResponseWriter.SetHeader,
    ResponseWriter.status, ResponseWriter.sentHeader, newResponseWriter,
    StatusInternalServerError, Values.Set, Values.empty]

/-- Claim C8 at a client whose `GetObject` rejects the request. -/
theorem download_GetObject_error_is_500_without_attachment_headers_witness :
    (downloadHandler (fixedClient (Except.error "unused") [] (Except.error "Object name cannot be empty"))
        () newResponseWriter
        (getRequest ((Values.empty.Set "bucket" "test").Set "object" "a.txt"))).w.status = 500 ∧
    (downloadHandler (fixedClient (Except.error "unused") [] (Except.error "Object name cannot be empty"))
        () newResponseWriter
        (getRequest ((Values.empty.Set "bucket" "test").Set "object" "a.txt"))).w.body
      = [BodyItem.line "Failed to download object: Object name cannot be empty"] :=
  have h := download_GetObject_error_is_500_without_attachment_headers
    (fixedClient (Except.error "unused") [] (Except.error "Object name cannot be empty")) ()
    (getRequest ((Values.empty.Set "bucket" "test").Set "object" "a.txt"))
    "Object name cannot be empty" (by decide) (by decide) rfl
  ⟨h.1, h.2.1⟩

/-- Claim C9 fails as stated: when the reads of the object fail after two bytes,
the body is the two bytes followed by the line
"Error streaming object data: unexpected EOF", not the two bytes alone. -/
theorem download_copy_failure_appends_error_text :
    (downloadHandler
        (fixedClient (Except.error "unused") []
          (Except.ok { data := [104, 101], err := some "unexpected EOF" }))
        () newResponseWriter
        (getRequest ((Values.empty.Set "bucket" "test").Set "object" "a.txt"))).w.body
      = [BodyItem.byte 104, BodyItem.byte 101,
         BodyItem.line "Error streaming object data: unexpected EOF"] ∧
    (downloadHandler
        (fixedClient (Except.error "unused") []
          (Except.ok { data := [104, 101], err := some "unexpected EOF" }))
        () newResponseWriter
        (getRequest ((Values.empty.Set "bucket" "test").Set "object" "a.txt"))).w.body
      ≠ [BodyItem.byte 104, BodyItem.byte 101] := by
  decide

/-- Claim C9 as amended: when the copy fails on a read after at least one byte has
been written, `downloadHandler` logs the error and calls `http.Error`: the
status stays the 200 committed by the first write, with the attachment headers,
and the body is the bytes copied before the failure followed by the line
"Error streaming object data: <err>". -/
theorem download_copy_failure_calls_http_Error
    (s3Client : StorageClient σ) (store : σ) (r : Request) (b : Byte) (bs : List Byte)
    (err : String)
    (hb : r.query.Get "bucket" ≠ "") (ho : r.query.Get "object" ≠ "")
    (hget : s3Client.GetObject store (r.query.Get "bucket") (r.query.Get "object")
      = Except.ok { data := b :: bs, err := some err }) :
    (downloadHandler s3Client store newResponseWriter r).w.status = 200 ∧
    (downloadHandler s3Client store newResponseWriter r).w.body
      = (b :: bs).map BodyItem.byte ++ [BodyItem.line ("Error streaming object data: " ++ err)] ∧
    (downloadHandler s3Client store newResponseWriter r).w.sentHeader "Content-Type"
      = ["application/octet-stream"] ∧
    (downloadHandler s3Client store newResponseWriter r).w.sentHeader "Content-Disposition"
      = ["attachment; filename=" ++ r.query.Get "object"] ∧
    (downloadHandler s3Client store newResponseWriter r).log.getLast?
      = some ("Error streaming object data: " ++ err) := by
  unfold downloadHandler
  simp only [hb, ho, or_self, if_false, hget, Copy]
  simp [Error, ResponseWriter.Write, ResponseWriter.WriteHeader, ResponseWriter.SetHeader,
    ResponseWriter.status, ResponseWriter.sentHeader, newResponseWriter,
    StatusInternalServerError, Values.Set, Values.empty]

/-- Claim C9 as amended, at an object whose reads fail after three bytes. -/
theorem download_copy_failure_calls_http_Error_witness :
    (downloadHandler
        (fixedClient (Except.error "unused") []
          (Except.ok { data := [1, 2, 3], err := some "connection reset by peer" }))
        () newResponseWriter
        (getRequest ((Values.empty.Set "bucket" "b").Set "object" "o"))).w.body
      = [BodyItem.byte 1, BodyItem.byte 2, BodyItem.byte 3,
         BodyItem.line "Error streaming object data: connection reset by peer"] :=
  (download_copy_failure_calls_http_Error
    (fixedClient (Except.error "unused") []
      (Except.ok { data := [1, 2, 3], err := some "connection reset by peer" }))
    () (getRequest ((Values.empty.Set "bucket" "b").Set "object" "o")) 1 [2, 3]
    "connection reset by peer" (by decide) (by decide) rfl).2.1

/-- Claim C10: a list request whose `bucket` query parameter is missing or empty,
and a download request whose `bucket` or `object` query parameter is missing or
empty, are answered with 400 and without any call on the storage client. -/
theorem missing_parameter_is_bad_request_without_storage_call
    (s3Client : StorageClient σ) (store : σ) (rl rd : Request)
    (hl : rl.query "bucket" = [] ∨ (rl.query "bucket").head? = some "")
    (hd : (rd.query "bucket" = [] ∨ (rd.query "bucket").head? = some "") ∨
          (rd.query "object" = [] ∨ (rd.query "object").head? = some "")) :
    ((listObjectsHandler s3Client store newResponseWriter rl).w.status = 400 ∧
      (listObjectsHandler s3Client store newResponseWriter rl).calls = []) ∧
    ((downloadHandler s3Client store newResponseWriter rd).w.status = 400 ∧
      (downloadHandler s3Client store newResponseWriter rd).calls = []) := by
  have h1 := Values.Get_eq_empty_of_missing_or_empty hl
  have h2 : rd.query.Get "bucket" = "" ∨ rd.query.Get "object" = "" := by
    rcases hd with h | h
    · exact Or.inl (Values.Get_eq_empty_of_missing_or_empty h)
    · exact Or.inr (Values.Get_eq_empty_of_missing_or_empty h)
  constructor
  · simp [listObjectsHandler, h1, Error, ResponseWriter.Write, ResponseWriter.WriteHeader,
      ResponseWriter.SetHeader, ResponseWriter.status, newResponseWriter, StatusBadRequest]
  · simp [downloadHandler, h2, Error, ResponseWriter.Write, ResponseWriter.WriteHeader,
      ResponseWriter.SetHeader, ResponseWriter.status, newResponseWriter, StatusBadRequest]

/-- Claim C10 at a list request without query and a download request without
`object`. -/
theorem missing_parameter_is_bad_request_without_storage_call_witness :
    ((listObjectsHandler mapClient [] newResponseWriter (getRequest Values.empty)).w.status = 400 ∧
      (listObjectsHandler mapClient [] newResponseWriter (getRequest Values.empty)).calls = []) ∧
    ((downloadHandler mapClient [] newResponseWriter
        (getRequest (Values.empty.Set "bucket" "test"))).w.status = 400 ∧
      (downloadHandler mapClient [] newResponseWriter
        (getRequest (Values.empty.Set "bucket" "test"))).calls = []) :=
  missing_parameter_is_bad_request_without_storage_call mapClient []
    (getRequest Values.empty) (getRequest (Values.empty.Set "bucket" "test"))
    (Or.inl rfl) (Or.inr (Or.inl rfl))

end MinioGateway
